import Mathlib

/-!
Shallow embedding of `packit/config/common_package_config.py`.

Python values of type `Optional[str]` are embedded as `Option String`; the
Python truthiness of such a value (falsy exactly for `None` and `""`) is
`pyTruthyStr`.  Python lists are embedded as Lean lists (the only falsy list
being `[]`).  Exceptions are embedded with `Except PyErr`.  Methods that
mutate `self` are embedded in state-passing style: they return their result
together with the updated configuration value.
-/

/-- Python exceptions raised by the embedded code. -/
inductive PyErr where
  | keyError (key : String)
  | packitConfigException (msg : String)
  | attributeError (msg : String)
  | typeError (msg : String)
  | stopIteration
deriving DecidableEq

/-- Truthiness of an optional Python string: `None` and `""` are falsy. -/
def pyTruthyStr : Option String → Bool
  | none => false
  | some s => !(s == "")

/-- Python f-string rendering of an optional string: `None` renders as "None". -/
def pyStr : Option String → String
  | none => "None"
  | some s => s

/-- Python `o or d` for an optional string `o`: `o` when truthy, else `d`. -/
def pyOr (o : Option String) (d : String) : String :=
  if pyTruthyStr o then pyStr o else d

/-- Modelled from the spec: the file-synchronization descriptor type
(`packit.sync.SyncFilesItem`, whose source file is outside this excerpt) with
`src` (a list of source paths) and `dest` (a single destination path).  A
Python path slot may hold `None`, hence `Option String`. -/
structure SyncFilesItem where
  src : List (Option String)
  dest : Option String
deriving DecidableEq

/-- Modelled from the spec: `packit.sync.iter_srcs` (outside this excerpt),
the helper that flattens the `src` lists of the descriptors into one
sequence. -/
def iter_srcs (files : List SyncFilesItem) : List (Option String) :=
  (files.map SyncFilesItem.src).flatten

/-- Modelled from the spec: `packit.dist_git_instance.DistGitInstance`
(outside this excerpt), the resolved dist-git instance value: a base URL plus
a namespace.  The Python attribute `namespace` is called `nspace` here because
`namespace` is a Lean keyword. -/
structure DistGitInstance where
  url : String
  nspace : Option String
deriving DecidableEq

/-- Modelled from the spec: `DistGitInstance.from_url_and_namespace` builds
the dist-git instance value from a base URL and a namespace. -/
def DistGitInstance.from_url_and_namespace (url : String) (nspace : Option String) :
    DistGitInstance :=
  { url := url, nspace := nspace }

/-- Modelled from the spec: `packit.constants.DISTGIT_INSTANCES` (outside this
excerpt), the static registry mapping packaging-tool names to dist-git
instances; it contains a hard-coded "fedpkg" (Fedora) entry. -/
def DISTGIT_INSTANCES : List (String × DistGitInstance) :=
  [("fedpkg", { url := "https://src.fedoraproject.org/", nspace := some "rpms" }),
   ("centpkg", { url := "https://gitlab.com/redhat/centos-stream/", nspace := some "rpms" })]

/-- The two environment variables read via `getenv` by
`_construct_dist_git_instance`, captured at the moment of the call. -/
structure Env where
  DISTGIT_URL : Option String
  DISTGIT_NAMESPACE : Option String
deriving DecidableEq

/-- Source function `_construct_dist_git_instance`: explicit base URL wins,
then a truthy packaging-tool name is looked up in the static registry (a
missing key raises `KeyError`, carrying the key, as Python dict subscription
does), then the `DISTGIT_URL`/`DISTGIT_NAMESPACE` environment variables are
tried (guarded on `DISTGIT_URL` being set), and finally the registry's
"fedpkg" entry is the default. -/
def construct_dist_git_instance (base_url dist_git_namespace pkg_tool : Option String)
    (env : Env) : Except PyErr DistGitInstance :=
  match base_url with
  | some u => .ok (DistGitInstance.from_url_and_namespace u dist_git_namespace)
  | none =>
    if pyTruthyStr pkg_tool then
      match DISTGIT_INSTANCES.lookup (pyStr pkg_tool) with
      | some inst => .ok inst
      | none => .error (.keyError (pyStr pkg_tool))
    else
      match env.DISTGIT_URL with
      | some u => .ok (DistGitInstance.from_url_and_namespace u env.DISTGIT_NAMESPACE)
      | none =>
        match DISTGIT_INSTANCES.lookup "fedpkg" with
        | some inst => .ok inst
        | none => .error (.keyError "fedpkg")

/-- The attributes of `CommonPackageConfig` that the verified methods read or
write (the Python object carries many further data-only fields that no claim
touches). -/
structure CommonPackageConfig where
  config_file_path : Option String
  specfile_path : Option String
  _files_to_sync : List SyncFilesItem
  _files_to_sync_used : Bool
  synced_files : List SyncFilesItem
  upstream_package_name : Option String
  downstream_package_name : Option String
  _downstream_project_url : Option String
  dist_git_instance : DistGitInstance
  spec_source_id : String
  pkg_tool : Option String
deriving DecidableEq

/-- Constructor `CommonPackageConfig.__init__`, restricted to the attributes above.
`files_to_sync or []` and `synced_files or []` are `Option.getD _ []`, because
the only falsy list is `[]` and `[] or []` is `[]` again.  A `KeyError`
raised by `_construct_dist_git_instance` aborts construction. -/
def CommonPackageConfig.init
    (config_file_path specfile_path : Option String)
    (synced_files files_to_sync : Option (List SyncFilesItem))
    (dist_git_namespace upstream_package_name downstream_project_url
      downstream_package_name dist_git_base_url : Option String)
    (spec_source_id : String) (pkg_tool : Option String) (env : Env) :
    Except PyErr CommonPackageConfig :=
  match construct_dist_git_instance dist_git_base_url dist_git_namespace pkg_tool env with
  | .error e => .error e
  | .ok inst =>
    .ok { config_file_path := config_file_path
          specfile_path := specfile_path
          _files_to_sync := files_to_sync.getD []
          _files_to_sync_used := files_to_sync.isSome
          synced_files := synced_files.getD []
          upstream_package_name := upstream_package_name
          downstream_package_name := downstream_package_name
          _downstream_project_url := downstream_project_url
          dist_git_instance := inst
          spec_source_id := spec_source_id
          pkg_tool := pkg_tool }

/-- Property `dist_git_base_url`: a projection of the stored instance. -/
def CommonPackageConfig.dist_git_base_url (cfg : CommonPackageConfig) : String :=
  cfg.dist_git_instance.url

/-- Property `dist_git_namespace`: a projection of the stored instance. -/
def CommonPackageConfig.dist_git_namespace (cfg : CommonPackageConfig) : Option String :=
  cfg.dist_git_instance.nspace

/-- Property `files_to_sync`: the new-style list when it was supplied at
construction, else the deprecated `synced_files` list when truthy (non-empty),
else a fresh empty list. -/
def CommonPackageConfig.files_to_sync (cfg : CommonPackageConfig) : List SyncFilesItem :=
  if cfg._files_to_sync_used then cfg._files_to_sync
  else if cfg.synced_files ≠ [] then cfg.synced_files
  else []

/-- Property `dist_git_package_url`: the f-string
base url ++ namespace ++ "/" ++ name ++ ".git" when the downstream package
name is truthy, else `None`.  (A `None` namespace renders as "None", as in a
Python f-string.) -/
def CommonPackageConfig.dist_git_package_url (cfg : CommonPackageConfig) : Option String :=
  if pyTruthyStr cfg.downstream_package_name then
    some (cfg.dist_git_base_url ++ pyStr cfg.dist_git_namespace ++ "/" ++
      pyStr cfg.downstream_package_name ++ ".git")
  else none

/-- Property `downstream_project_url`: when the stored
`_downstream_project_url` is falsy it is overwritten with
`dist_git_package_url` and the new value is returned; otherwise the stored
value is returned.  The property mutates `self`, so it returns the updated
configuration as well. -/
def CommonPackageConfig.downstream_project_url (cfg : CommonPackageConfig) :
    Option String × CommonPackageConfig :=
  if pyTruthyStr cfg._downstream_project_url then (cfg._downstream_project_url, cfg)
  else
    let v := cfg.dist_git_package_url
    (v, { cfg with _downstream_project_url := v })

/-- Embeds `os.path.basename` for POSIX paths: the component after the last slash
(computed by a left fold that restarts at every slash). -/
def basename (p : String) : String :=
  String.mk (p.toList.foldl (fun acc c => if c = '/' then [] else acc ++ [c]) [])

/-- Method `get_specfile_sync_files_item`: the sync descriptor between the upstream
specfile path and the computed downstream specfile path.  When the downstream
package name is falsy and the upstream specfile path is `None`,
`os.path.basename(None)` raises `TypeError`. -/
def CommonPackageConfig.get_specfile_sync_files_item (cfg : CommonPackageConfig)
    (from_downstream : Bool) : Except PyErr SyncFilesItem :=
  match (if pyTruthyStr cfg.downstream_package_name then
           .ok (pyStr cfg.downstream_package_name ++ ".spec")
         else
           match cfg.specfile_path with
           | some p => .ok (basename p)
           | none =>
             .error (.typeError "expected str, bytes or os.PathLike object, not NoneType") :
          Except PyErr String) with
  | .error e => .error e
  | .ok downstream_specfile_path =>
    .ok { src := [if from_downstream then some downstream_specfile_path else cfg.specfile_path]
          dest := if from_downstream then cfg.specfile_path else some downstream_specfile_path }

/-- Method `get_all_files_to_sync`: starts from the list object returned by the
`files_to_sync` property and, when the new-style option is not used, appends
the specfile descriptor and the config-file descriptor unless their source
path is already present among the flattened source paths.  In Python the
appends go through the alias: when the base list is the stored
`synced_files` list the stored attribute is mutated in place, which the
state-passing result records; when the base list is the fresh `[]` of the
property's last branch, or when the new-style option is used (no appends),
the stored state is unchanged. -/
def CommonPackageConfig.get_all_files_to_sync (cfg : CommonPackageConfig) :
    Except PyErr (List SyncFilesItem × CommonPackageConfig) :=
  let files := cfg.files_to_sync
  if cfg._files_to_sync_used then .ok (files, cfg)
  else
    match (if cfg.specfile_path ∈ iter_srcs files then .ok files
           else
             match cfg.get_specfile_sync_files_item false with
             | .error e => .error e
             | .ok it => .ok (files ++ [it]) :
            Except PyErr (List SyncFilesItem)) with
    | .error e => .error e
    | .ok files1 =>
      let files2 :=
        if pyTruthyStr cfg.config_file_path = true ∧ cfg.config_file_path ∉ iter_srcs files1 then
          files1 ++ [{ src := [cfg.config_file_path], dest := cfg.config_file_path }]
        else files1
      let cfg2 := if cfg.synced_files ≠ [] then { cfg with synced_files := files2 } else cfg
      .ok (files2, cfg2)

/-- Worker for `re.split` with the pattern of one captured digit run: peel a
(possibly empty) non-digit piece and a following maximal digit run, keeping
both, and recurse on the remainder.  The fuel argument makes the recursion
structural; every recursive call strictly shortens the character list, so a
fuel of `cs.length + 1` is never exhausted and the fuel-zero branch is
unreachable for the wrapper below. -/
def splitDRAux : Nat → List Char → List String
  | 0, cs => [String.mk cs]
  | fuel + 1, cs =>
    let pre := cs.takeWhile (fun c => !c.isDigit)
    let rest := cs.dropWhile (fun c => !c.isDigit)
    if rest = [] then [String.mk pre]
    else
      String.mk pre :: String.mk (rest.takeWhile Char.isDigit) ::
        splitDRAux fuel (rest.dropWhile Char.isDigit)

/-- Embeds `re.split(r"(\d+)", s)` on the character list of `s`: split on maximal
digit runs, keeping the captured runs in the result. -/
def splitDR (cs : List Char) : List String :=
  splitDRAux (cs.length + 1) cs

/-- Python `int` on a string of decimal digits. -/
def pyIntOfDigits (s : String) : Nat :=
  s.toList.foldl (fun a c => a * 10 + (c.toNat - 48)) 0

/-- Property `spec_source_id_number`:
`int(next(iter(split(r"(\d+)", self.spec_source_id)[1:]), 0))`. -/
def CommonPackageConfig.spec_source_id_number (cfg : CommonPackageConfig) : Nat :=
  match ((splitDR cfg.spec_source_id.toList).drop 1).head? with
  | some g => pyIntOfDigits g
  | none => 0

/-- The value of the first maximal digit run of `s`, and 0 when `s` has no
digit: the spec's description of `spec_source_id_number`. -/
def firstDigitRunValue (s : String) : Nat :=
  pyIntOfDigits (String.mk ((s.toList.dropWhile (fun c => !c.isDigit)).takeWhile Char.isDigit))

/-- Class `MultiplePackages`: the collection facade over `{name: CommonPackageConfig}`.
The insertion-ordered Python dict is an association list here. -/
structure MultiplePackages where
  packages : List (String × CommonPackageConfig)
  _first_package : String
deriving DecidableEq

/-- Constructor `MultiplePackages.__init__`: stores the mapping and its first key;
`next(iter(packages))` raises `StopIteration` on an empty mapping. -/
def MultiplePackages.init (packages : List (String × CommonPackageConfig)) :
    Except PyErr MultiplePackages :=
  match packages with
  | [] => .error .stopIteration
  | (k, _) :: _ => .ok { packages := packages, _first_package := k }

/-- Method `MultiplePackages.__getattr__`, which Python invokes exactly when `name`
was not found by normal lookup (hence the source's `name in self.__dict__`
guard is never taken and is omitted).  The attribute itself is abstracted as
the getter `g` reading it off a package. -/
def MultiplePackages.getattrFallback {α : Type} (mp : MultiplePackages) (name : String)
    (g : CommonPackageConfig → α) : Except PyErr α :=
  if mp.packages.length = 1 then
    match mp.packages.lookup mp._first_package with
    | some p => .ok (g p)
    | none => .error (.keyError mp._first_package)
  else
    .error (.attributeError ("It is ambiguous to get " ++ name ++
      ": there is more than one package in the config."))

/-- Method `MultiplePackages.__setattr__` on the fallback path, i.e. for a `name`
that is not in the collection's own `__dict__` while `packages` is.  The
attribute itself is abstracted as the setter `s` updating a package. -/
def MultiplePackages.setattrFallback {α : Type} (mp : MultiplePackages) (name : String)
    (s : CommonPackageConfig → α → CommonPackageConfig) (v : α) :
    Except PyErr MultiplePackages :=
  if mp.packages.length = 1 then
    match mp.packages.lookup mp._first_package with
    | some _ => .ok { mp with packages := mp.packages.map (fun kv =>
        if kv.1 = mp._first_package then (kv.1, s kv.2 v) else kv) }
    | none => .error (.keyError mp._first_package)
  else
    .error (.attributeError ("It is ambiguous to set " ++ name ++
      ": there is more than one package in the config."))

/-- Method `get_package_names_as_env`: the 3-entry environment mapping for a
single-package collection, a `PackitConfigException` otherwise. -/
def MultiplePackages.get_package_names_as_env (mp : MultiplePackages) :
    Except PyErr (List (String × String)) :=
  if mp.packages.length = 1 then
    match mp.packages with
    | (k, p) :: _ =>
      .ok [("PACKIT_CONFIG_PACKAGE_NAME", k),
           ("PACKIT_UPSTREAM_PACKAGE_NAME", pyOr p.upstream_package_name ""),
           ("PACKIT_DOWNSTREAM_PACKAGE_NAME", pyOr p.downstream_package_name "")]
    | [] => .error (.packitConfigException "No packages in config")
  else .error (.packitConfigException "Multiple packages in config")

/-- A concrete configuration as built with every optional argument absent
(dist-git resolution falls through to the "fedpkg" registry entry). -/
def defaultCfg : CommonPackageConfig :=
  { config_file_path := none
    specfile_path := none
    _files_to_sync := []
    _files_to_sync_used := false
    synced_files := []
    upstream_package_name := none
    downstream_package_name := none
    _downstream_project_url := none
    dist_git_instance := { url := "https://src.fedoraproject.org/", nspace := some "rpms" }
    spec_source_id := "Source0"
    pkg_tool := none }

deriving instance DecidableEq for Except

/-- Unfolding of the first captured group of the digit split: it is the first
maximal digit run of the input, absent exactly when the input has no digit. -/
theorem splitDR_drop_one_head (cs : List Char) :
    ((splitDR cs).drop 1).head? =
      if cs.dropWhile (fun c => !c.isDigit) = [] then none
      else some (String.mk ((cs.dropWhile (fun c => !c.isDigit)).takeWhile Char.isDigit)) := by
  by_cases h : cs.dropWhile (fun c => !c.isDigit) = [] <;>
    simp [splitDR, splitDRAux, h]

/-- Claim C7: for every string value of `spec_source_id`,
`spec_source_id_number` returns the first numeric group obtained by splitting
the string on runs of digits (regex-split semantics), and returns 0 when the
string contains no digits; in particular "Source0" yields 0, "Source17"
yields 17, and "Patch" yields 0. -/
theorem c7_spec_source_id_number (cfg : CommonPackageConfig) :
    cfg.spec_source_id_number = firstDigitRunValue cfg.spec_source_id ∧
    (cfg.spec_source_id.toList.all (fun c => !c.isDigit) = true →
      cfg.spec_source_id_number = 0) ∧
    CommonPackageConfig.spec_source_id_number
      { defaultCfg with spec_source_id := "Source0" } = 0 ∧
    CommonPackageConfig.spec_source_id_number
      { defaultCfg with spec_source_id := "Source17" } = 17 ∧
    CommonPackageConfig.spec_source_id_number
      { defaultCfg with spec_source_id := "Patch" } = 0 := by
  have hmain : cfg.spec_source_id_number = firstDigitRunValue cfg.spec_source_id := by
    unfold CommonPackageConfig.spec_source_id_number firstDigitRunValue
    rw [splitDR_drop_one_head]
    by_cases h : cfg.spec_source_id.toList.dropWhile (fun c => !c.isDigit) = []
    · rw [if_pos h, h]
      decide
    · rw [if_neg h]
  refine ⟨hmain, ?_, by decide, by decide, by decide⟩
  intro hall
  have hnil : cfg.spec_source_id.toList.dropWhile (fun c => !c.isDigit) = [] := by
    rw [List.dropWhile_eq_nil_iff]
    intro x hx
    exact List.all_eq_true.mp hall x hx
  rw [hmain]
  unfold firstDigitRunValue
  rw [hnil]
  decide

/-- Claim C7 witness: the "Patch" example, discharging the no-digit
hypothesis concretely. -/
theorem c7_witness :
    CommonPackageConfig.spec_source_id_number
      { defaultCfg with spec_source_id := "Patch" } = 0 :=
  (c7_spec_source_id_number { defaultCfg with spec_source_id := "Patch" }).2.1 (by decide)

/-- Claim C6 counterexample: the claim's own example fails on the code.  With
base URL "https://example/", namespace "rpms/" and downstream name "foo" the
code produces "https://example/rpms//foo.git" (the f-string inserts a slash
of its own after the namespace), not "https://example/rpms/foo.git". -/
theorem c6_counterexample :
    CommonPackageConfig.init none none none none (some "rpms/") none none (some "foo")
      (some "https://example/") "Source0" none ⟨none, none⟩ =
      .ok { defaultCfg with
              dist_git_instance := { url := "https://example/", nspace := some "rpms/" }
              downstream_package_name := some "foo" } ∧
    CommonPackageConfig.dist_git_package_url
      { defaultCfg with
          dist_git_instance := { url := "https://example/", nspace := some "rpms/" }
          downstream_package_name := some "foo" } = some "https://example/rpms//foo.git" ∧
    CommonPackageConfig.dist_git_package_url
      { defaultCfg with
          dist_git_instance := { url := "https://example/", nspace := some "rpms/" }
          downstream_package_name := some "foo" } ≠ some "https://example/rpms/foo.git" := by
  refine ⟨by decide, by decide, by decide⟩

/-- Claim C6 (amended): `dist_git_package_url` is null exactly when
`downstream_package_name` is unset or empty; otherwise it is
base URL ++ namespace ++ "/" ++ name ++ ".git" — e.g. with base
"https://example/", namespace "rpms" (no trailing slash) and name "foo" the
result is "https://example/rpms/foo.git". -/
theorem c6_dist_git_package_url (cfg : CommonPackageConfig) :
    (cfg.dist_git_package_url = none ↔ pyTruthyStr cfg.downstream_package_name = false) ∧
    (∀ n : String, cfg.downstream_package_name = some n → n ≠ "" →
      cfg.dist_git_package_url =
        some (cfg.dist_git_base_url ++ pyStr cfg.dist_git_namespace ++ "/" ++ n ++ ".git")) := by
  constructor
  · unfold CommonPackageConfig.dist_git_package_url
    by_cases h : pyTruthyStr cfg.downstream_package_name <;> simp [h]
  · intro n hn hne
    have ht : pyTruthyStr cfg.downstream_package_name = true := by
      rw [hn]
      simpa [pyTruthyStr] using hne
    unfold CommonPackageConfig.dist_git_package_url
    rw [if_pos ht, hn]
    rfl

/-- Claim C6 witness: the amended example. -/
theorem c6_witness :
    CommonPackageConfig.dist_git_package_url
      { defaultCfg with
          dist_git_instance := { url := "https://example/", nspace := some "rpms" }
          downstream_package_name := some "foo" } = some "https://example/rpms/foo.git" := by
  have h := (c6_dist_git_package_url
    { defaultCfg with
        dist_git_instance := { url := "https://example/", nspace := some "rpms" }
        downstream_package_name := some "foo" }).2 "foo" rfl (by decide)
  rw [h]
  decide

/-- Claim C9: `get_package_names_as_env` on a one-package collection returns
the 3-entry mapping (package key, upstream name or "", downstream name or "");
on a collection whose package count is not one it raises a
`PackitConfigException`. -/
theorem c9_get_package_names_as_env :
    (∀ (k : String) (p : CommonPackageConfig) (mp : MultiplePackages),
      mp.packages = [(k, p)] →
      mp.get_package_names_as_env =
        .ok [("PACKIT_CONFIG_PACKAGE_NAME", k),
             ("PACKIT_UPSTREAM_PACKAGE_NAME", pyOr p.upstream_package_name ""),
             ("PACKIT_DOWNSTREAM_PACKAGE_NAME", pyOr p.downstream_package_name "")]) ∧
    (∀ mp : MultiplePackages, mp.packages.length ≠ 1 →
      mp.get_package_names_as_env =
        .error (.packitConfigException "Multiple packages in config")) := by
  constructor
  · intro k p mp h
    unfold MultiplePackages.get_package_names_as_env
    rw [h]
    rfl
  · intro mp h
    unfold MultiplePackages.get_package_names_as_env
    rw [if_neg h]

/-- Claim C9 witness: the spec's example — a single package named "pkg" with
upstream name "up" and no downstream name. -/
theorem c9_witness :
    MultiplePackages.get_package_names_as_env
      { packages := [("pkg", { defaultCfg with upstream_package_name := some "up" })],
        _first_package := "pkg" } =
      .ok [("PACKIT_CONFIG_PACKAGE_NAME", "pkg"),
           ("PACKIT_UPSTREAM_PACKAGE_NAME", "up"),
           ("PACKIT_DOWNSTREAM_PACKAGE_NAME", "")] := by
  have h := c9_get_package_names_as_env.1 "pkg"
    { defaultCfg with upstream_package_name := some "up" }
    { packages := [("pkg", { defaultCfg with upstream_package_name := some "up" })],
      _first_package := "pkg" } rfl
  rw [h]
  decide

/-- Claim C8: for an attribute name not defined on the collection itself, a
one-package collection forwards reads and writes to its sole package, while a
collection with more than one package fails both with an `AttributeError`
naming the attribute. -/
theorem c8_attribute_delegation {α : Type} :
    (∀ (k : String) (p : CommonPackageConfig) (mp : MultiplePackages) (name : String)
        (g : CommonPackageConfig → α)
        (s : CommonPackageConfig → α → CommonPackageConfig) (v : α),
      mp.packages = [(k, p)] → mp._first_package = k →
      mp.getattrFallback name g = .ok (g p) ∧
      mp.setattrFallback name s v = .ok { mp with packages := [(k, s p v)] }) ∧
    (∀ (mp : MultiplePackages) (name : String) (g : CommonPackageConfig → α)
        (s : CommonPackageConfig → α → CommonPackageConfig) (v : α),
      1 < mp.packages.length →
      mp.getattrFallback name g =
        .error (.attributeError ("It is ambiguous to get " ++ name ++
          ": there is more than one package in the config.")) ∧
      mp.setattrFallback name s v =
        .error (.attributeError ("It is ambiguous to set " ++ name ++
          ": there is more than one package in the config."))) := by
  constructor
  · intro k p mp name g s v hp hf
    unfold MultiplePackages.getattrFallback MultiplePackages.setattrFallback
    rw [hp, hf]
    simp [List.lookup]
  · intro mp name g s v hlen
    have h1 : mp.packages.length ≠ 1 := by omega
    unfold MultiplePackages.getattrFallback MultiplePackages.setattrFallback
    rw [if_neg h1, if_neg h1]
    exact ⟨rfl, rfl⟩

/-- Claim C8 witness: reading and writing `upstream_package_name` through a
one-package collection, and the ambiguity error on a two-package collection. -/
theorem c8_witness :
    MultiplePackages.getattrFallback
      { packages := [("pkg", { defaultCfg with upstream_package_name := some "up" })],
        _first_package := "pkg" } "upstream_package_name"
      CommonPackageConfig.upstream_package_name = .ok (some "up") ∧
    MultiplePackages.setattrFallback
      { packages := [("pkg", defaultCfg)], _first_package := "pkg" }
      "upstream_package_name"
      (fun c v => { c with upstream_package_name := v }) (some "up") =
      .ok { packages := [("pkg", { defaultCfg with upstream_package_name := some "up" })],
            _first_package := "pkg" } ∧
    MultiplePackages.getattrFallback
      { packages := [("a", defaultCfg), ("b", defaultCfg)], _first_package := "a" }
      "upstream_package_name" CommonPackageConfig.upstream_package_name =
      .error (.attributeError
        "It is ambiguous to get upstream_package_name: there is more than one package in the config.") := by
  refine ⟨?_, ?_, ?_⟩
  · exact (c8_attribute_delegation.1 "pkg"
      { defaultCfg with upstream_package_name := some "up" }
      { packages := [("pkg", { defaultCfg with upstream_package_name := some "up" })],
        _first_package := "pkg" } "upstream_package_name"
      CommonPackageConfig.upstream_package_name
      (fun c v => { c with upstream_package_name := v }) (some "up") rfl rfl).1
  · exact (c8_attribute_delegation.1 "pkg" defaultCfg
      { packages := [("pkg", defaultCfg)], _first_package := "pkg" }
      "upstream_package_name" CommonPackageConfig.upstream_package_name
      (fun c v => { c with upstream_package_name := v }) (some "up") rfl rfl).2
  · have h := (c8_attribute_delegation.2
      { packages := [("a", defaultCfg), ("b", defaultCfg)], _first_package := "a" }
      "upstream_package_name" CommonPackageConfig.upstream_package_name
      (fun c v => { c with upstream_package_name := v }) (some "up") (by decide)).1
    rw [h]
    rfl

/-- Inversion of a successful construction: each stored attribute in terms of
the constructor arguments. -/
theorem CommonPackageConfig.init_ok
    (cfp sp : Option String) (sf fts : Option (List SyncFilesItem))
    (ns up dpu dpn dbu : Option String) (ssi : String) (pt : Option String)
    (env : Env) (cfg : CommonPackageConfig)
    (h : CommonPackageConfig.init cfp sp sf fts ns up dpu dpn dbu ssi pt env = .ok cfg) :
    construct_dist_git_instance dbu ns pt env = .ok cfg.dist_git_instance ∧
    cfg.config_file_path = cfp ∧ cfg.specfile_path = sp ∧
    cfg._files_to_sync = fts.getD [] ∧ cfg._files_to_sync_used = fts.isSome ∧
    cfg.synced_files = sf.getD [] ∧ cfg.upstream_package_name = up ∧
    cfg.downstream_package_name = dpn ∧ cfg._downstream_project_url = dpu ∧
    cfg.spec_source_id = ssi ∧ cfg.pkg_tool = pt := by
  unfold CommonPackageConfig.init at h
  cases hc : construct_dist_git_instance dbu ns pt env with
  | error e => rw [hc] at h; exact absurd h (by simp)
  | ok inst =>
    rw [hc] at h
    simp only [Except.ok.injEq] at h
    subst h
    simp

/-- Claim C1: if `files_to_sync` was explicitly supplied at construction (even
as an empty list), the `files_to_sync` property returns that list; otherwise,
if the deprecated `synced_files` list is non-empty, the property returns the
deprecated list; otherwise it returns an empty sequence. -/
theorem c1_files_to_sync_precedence
    (cfp sp : Option String) (sf fts : Option (List SyncFilesItem))
    (ns up dpu dpn dbu : Option String) (ssi : String) (pt : Option String)
    (env : Env) (cfg : CommonPackageConfig)
    (h : CommonPackageConfig.init cfp sp sf fts ns up dpu dpn dbu ssi pt env = .ok cfg) :
    (∀ l, fts = some l → cfg.files_to_sync = l) ∧
    (fts = none → ∀ m, sf = some m → m ≠ [] → cfg.files_to_sync = m) ∧
    (fts = none → (sf = none ∨ sf = some []) → cfg.files_to_sync = []) := by
  obtain ⟨-, -, -, hlist, hused, hsf, -⟩ :=
    CommonPackageConfig.init_ok cfp sp sf fts ns up dpu dpn dbu ssi pt env cfg h
  refine ⟨?_, ?_, ?_⟩
  · intro l hl
    subst hl
    unfold CommonPackageConfig.files_to_sync
    rw [hused, hlist]
    rfl
  · intro hn m hm hne
    subst hn; subst hm
    unfold CommonPackageConfig.files_to_sync
    rw [hused, hsf]
    simp [hne]
  · intro hn hsome
    subst hn
    unfold CommonPackageConfig.files_to_sync
    rw [hused, hsf]
    rcases hsome with h0 | h0 <;> subst h0 <;> simp

/-- Claim C1 witness: constructing with `files_to_sync=[]` and a non-empty
`synced_files` yields `[]`. -/
theorem c1_witness :
    CommonPackageConfig.files_to_sync
      { defaultCfg with
          synced_files := [{ src := [some "a"], dest := some "a" }]
          _files_to_sync_used := true } = [] :=
  (c1_files_to_sync_precedence none none
    (some [{ src := [some "a"], dest := some "a" }]) (some [])
    none none none none none "Source0" none ⟨none, none⟩
    { defaultCfg with
        synced_files := [{ src := [some "a"], dest := some "a" }]
        _files_to_sync_used := true } (by decide)).1 [] rfl

/-- Claim C2: dist-git instance resolution follows the 4-step precedence —
explicit base URL, else truthy packaging-tool name via the static registry,
else the `DISTGIT_URL`/`DISTGIT_NAMESPACE` environment variables (guarded on
`DISTGIT_URL`), else the registry's "fedpkg" entry — and the resolved value is
computed at construction and stored; `dist_git_base_url` and
`dist_git_namespace` are mere projections of the stored value. -/
theorem c2_dist_git_resolution :
    (∀ (u : String) (ns tool : Option String) (env : Env),
      construct_dist_git_instance (some u) ns tool env =
        .ok (DistGitInstance.from_url_and_namespace u ns)) ∧
    (∀ (ns : Option String) (s : String) (env : Env) (inst : DistGitInstance),
      s ≠ "" → DISTGIT_INSTANCES.lookup s = some inst →
      construct_dist_git_instance none ns (some s) env = .ok inst) ∧
    (∀ (ns tool : Option String) (u : String) (nsEnv : Option String),
      pyTruthyStr tool = false →
      construct_dist_git_instance none ns tool ⟨some u, nsEnv⟩ =
        .ok (DistGitInstance.from_url_and_namespace u nsEnv)) ∧
    (∀ (ns tool nsEnv : Option String),
      pyTruthyStr tool = false →
      ∃ i, DISTGIT_INSTANCES.lookup "fedpkg" = some i ∧
        construct_dist_git_instance none ns tool ⟨none, nsEnv⟩ = .ok i) ∧
    (∀ (cfp sp : Option String) (sf fts : Option (List SyncFilesItem))
        (ns up dpu dpn dbu : Option String) (ssi : String) (pt : Option String)
        (env : Env) (cfg : CommonPackageConfig),
      CommonPackageConfig.init cfp sp sf fts ns up dpu dpn dbu ssi pt env = .ok cfg →
      construct_dist_git_instance dbu ns pt env = .ok cfg.dist_git_instance ∧
      cfg.dist_git_base_url = cfg.dist_git_instance.url ∧
      cfg.dist_git_namespace = cfg.dist_git_instance.nspace) := by
  refine ⟨?_, ?_, ?_, ?_, ?_⟩
  · intro u ns tool env
    rfl
  · intro ns s env inst hne hl
    have ht : pyTruthyStr (some s) = true := by simpa [pyTruthyStr] using hne
    unfold construct_dist_git_instance
    rw [if_pos ht]
    simp [pyStr, hl]
  · intro ns tool u nsEnv hf
    unfold construct_dist_git_instance
    cases tool with
    | none => rfl
    | some s => rw [if_neg (by simp [hf])]
  · intro ns tool nsEnv hf
    refine ⟨{ url := "https://src.fedoraproject.org/", nspace := some "rpms" }, by decide, ?_⟩
    unfold construct_dist_git_instance
    cases tool with
    | none => rfl
    | some s =>
      rw [if_neg (by simp [hf])]
      rfl
  · intro cfp sp sf fts ns up dpu dpn dbu ssi pt env cfg h
    obtain ⟨hinst, -⟩ :=
      CommonPackageConfig.init_ok cfp sp sf fts ns up dpu dpn dbu ssi pt env cfg h
    exact ⟨hinst, rfl, rfl⟩

/-- Claim C2 witness: one concrete instance of each precedence step, plus a
constructed configuration whose stored instance matches the resolver. -/
theorem c2_witness :
    construct_dist_git_instance (some "https://example/") (some "ns") (some "centpkg")
      ⟨some "https://env/", some "envns"⟩ =
      .ok { url := "https://example/", nspace := some "ns" } ∧
    construct_dist_git_instance none none (some "centpkg")
      ⟨some "https://env/", some "envns"⟩ =
      .ok { url := "https://gitlab.com/redhat/centos-stream/", nspace := some "rpms" } ∧
    construct_dist_git_instance none none none ⟨some "https://env/", some "envns"⟩ =
      .ok { url := "https://env/", nspace := some "envns" } ∧
    construct_dist_git_instance none none none ⟨none, none⟩ =
      .ok { url := "https://src.fedoraproject.org/", nspace := some "rpms" } ∧
    defaultCfg.dist_git_base_url = defaultCfg.dist_git_instance.url := by
  refine ⟨?_, ?_, ?_, ?_, ?_⟩
  · exact c2_dist_git_resolution.1 "https://example/" (some "ns") (some "centpkg")
      ⟨some "https://env/", some "envns"⟩
  · exact c2_dist_git_resolution.2.1 none "centpkg" ⟨some "https://env/", some "envns"⟩
      { url := "https://gitlab.com/redhat/centos-stream/", nspace := some "rpms" }
      (by decide) (by decide)
  · exact c2_dist_git_resolution.2.2.1 none none "https://env/" (some "envns") (by decide)
  · obtain ⟨i, hi, hc⟩ := c2_dist_git_resolution.2.2.2.1 none none none (by decide)
    rw [hc]
    have : i = { url := "https://src.fedoraproject.org/", nspace := some "rpms" } := by
      have := hi
      simp [DISTGIT_INSTANCES, List.lookup] at this
      exact this.symm
    rw [this]
  · exact (c2_dist_git_resolution.2.2.2.2 none none none none none none none none none
      "Source0" none ⟨none, none⟩ defaultCfg (by decide)).2.1

/-- Claim C3 counterexample: construct with no downstream package name and no
explicit URL; the first read of `downstream_project_url` returns `None` (and
caches only that falsy value), then mutating `downstream_package_name` makes
the next read recompute and return a different value — so a subsequent read
differs from the first read, contradicting the claim. -/
theorem c3_counterexample :
    (CommonPackageConfig.downstream_project_url defaultCfg).1 = none ∧
    (CommonPackageConfig.downstream_project_url
        { (CommonPackageConfig.downstream_project_url defaultCfg).2 with
            downstream_package_name := some "foo" }).1 ≠
      (CommonPackageConfig.downstream_project_url defaultCfg).1 := by
  refine ⟨by decide, by decide⟩

/-- Claim C3 (amended): once `downstream_project_url` has been read and the
value obtained was truthy (non-null, non-empty), every subsequent read — after
any mutation that leaves the cached `_downstream_project_url` field untouched,
such as mutating `downstream_package_name` — returns the same value.  (When
the first read yields a falsy value nothing effective is cached and a later
read recomputes.) -/
theorem c3_memoized_when_truthy
    (cfg cfg1 cfg2 : CommonPackageConfig) (v : Option String)
    (h : cfg.downstream_project_url = (v, cfg1)) (hv : pyTruthyStr v = true)
    (hcache : cfg2._downstream_project_url = cfg1._downstream_project_url) :
    cfg2.downstream_project_url = (v, cfg2) := by
  have h1 : cfg1._downstream_project_url = v := by
    unfold CommonPackageConfig.downstream_project_url at h
    by_cases hb : pyTruthyStr cfg._downstream_project_url = true
    · rw [if_pos hb] at h
      obtain ⟨h2, h3⟩ := Prod.mk.injEq .. ▸ h
      rw [← h3, h2]
    · rw [if_neg hb] at h
      obtain ⟨h2, h3⟩ := Prod.mk.injEq .. ▸ h
      rw [← h3, h2]
  unfold CommonPackageConfig.downstream_project_url
  rw [hcache, h1, if_pos hv]

/-- Claim C3 witness: after a first read that produced a truthy URL, a read
following a mutation of `downstream_package_name` still returns it. -/
theorem c3_witness :
    CommonPackageConfig.downstream_project_url
      { defaultCfg with
          downstream_package_name := some "bar"
          _downstream_project_url := some "https://src.fedoraproject.org/rpms/foo.git" } =
      (some "https://src.fedoraproject.org/rpms/foo.git",
        { defaultCfg with
            downstream_package_name := some "bar"
            _downstream_project_url := some "https://src.fedoraproject.org/rpms/foo.git" }) :=
  c3_memoized_when_truthy
    { defaultCfg with downstream_package_name := some "foo" }
    { defaultCfg with
        downstream_package_name := some "foo"
        _downstream_project_url := some "https://src.fedoraproject.org/rpms/foo.git" }
    { defaultCfg with
        downstream_package_name := some "bar"
        _downstream_project_url := some "https://src.fedoraproject.org/rpms/foo.git" }
    (some "https://src.fedoraproject.org/rpms/foo.git")
    (by decide) (by decide) (by decide)

/-- Keys of the modelled static registry are non-empty strings. -/
theorem lookup_distgit_key_ne_empty (s : String) (inst : DistGitInstance)
    (h : DISTGIT_INSTANCES.lookup s = some inst) : s ≠ "" := by
  rintro rfl
  simp [DISTGIT_INSTANCES, List.lookup] at h

/-- Claim C4: with no explicit base URL, a (truthy) `pkg_tool` name absent
from the static registry makes resolution raise a `KeyError` carrying the
unknown tool name, which aborts construction; for every name present in the
registry this path cannot fail. -/
theorem c4_unknown_pkg_tool :
    (∀ (ns : Option String) (env : Env) (s : String),
      s ≠ "" → DISTGIT_INSTANCES.lookup s = none →
      construct_dist_git_instance none ns (some s) env = .error (.keyError s)) ∧
    (∀ (cfp sp : Option String) (sf fts : Option (List SyncFilesItem))
        (ns up dpu dpn : Option String) (ssi : String) (s : String) (env : Env),
      s ≠ "" → DISTGIT_INSTANCES.lookup s = none →
      CommonPackageConfig.init cfp sp sf fts ns up dpu dpn none ssi (some s) env =
        .error (.keyError s)) ∧
    (∀ (ns : Option String) (env : Env) (s : String) (inst : DistGitInstance),
      DISTGIT_INSTANCES.lookup s = some inst →
      construct_dist_git_instance none ns (some s) env = .ok inst) ∧
    (∀ (cfp sp : Option String) (sf fts : Option (List SyncFilesItem))
        (ns up dpu dpn : Option String) (ssi : String) (s : String)
        (inst : DistGitInstance) (env : Env),
      DISTGIT_INSTANCES.lookup s = some inst →
      ∃ cfg, CommonPackageConfig.init cfp sp sf fts ns up dpu dpn none ssi (some s) env =
          .ok cfg ∧ cfg.dist_git_instance = inst) := by
  have herr : ∀ (ns : Option String) (env : Env) (s : String),
      s ≠ "" → DISTGIT_INSTANCES.lookup s = none →
      construct_dist_git_instance none ns (some s) env = .error (.keyError s) := by
    intro ns env s hne hl
    have ht : pyTruthyStr (some s) = true := by simpa [pyTruthyStr] using hne
    unfold construct_dist_git_instance
    rw [if_pos ht]
    simp [pyStr, hl]
  have hok : ∀ (ns : Option String) (env : Env) (s : String) (inst : DistGitInstance),
      DISTGIT_INSTANCES.lookup s = some inst →
      construct_dist_git_instance none ns (some s) env = .ok inst := by
    intro ns env s inst hl
    have hne := lookup_distgit_key_ne_empty s inst hl
    have ht : pyTruthyStr (some s) = true := by simpa [pyTruthyStr] using hne
    unfold construct_dist_git_instance
    rw [if_pos ht]
    simp [pyStr, hl]
  refine ⟨herr, ?_, hok, ?_⟩
  · intro cfp sp sf fts ns up dpu dpn ssi s env hne hl
    unfold CommonPackageConfig.init
    rw [herr ns env s hne hl]
  · intro cfp sp sf fts ns up dpu dpn ssi s inst env hl
    unfold CommonPackageConfig.init
    rw [hok ns env s inst hl]
    exact ⟨_, rfl, rfl⟩

/-- Claim C4 witness: the unknown tool "rhpkg" is fatal to construction with
an error naming it, and the registered tool "fedpkg" resolves fine. -/
theorem c4_witness :
    CommonPackageConfig.init none none none none none none none none none
      "Source0" (some "rhpkg") ⟨none, none⟩ = .error (.keyError "rhpkg") ∧
    construct_dist_git_instance none none (some "fedpkg") ⟨none, none⟩ =
      .ok { url := "https://src.fedoraproject.org/", nspace := some "rpms" } := by
  constructor
  · exact c4_unknown_pkg_tool.2.1 none none none none none none none none "Source0"
      "rhpkg" ⟨none, none⟩ (by decide) (by decide)
  · exact c4_unknown_pkg_tool.2.2.1 none ⟨none, none⟩ "fedpkg"
      { url := "https://src.fedoraproject.org/", nspace := some "rpms" } (by decide)

/-- Lemma: `iter_srcs` distributes over list append. -/
theorem iter_srcs_append (l1 l2 : List SyncFilesItem) :
    iter_srcs (l1 ++ l2) = iter_srcs l1 ++ iter_srcs l2 := by
  simp [iter_srcs]

/-- The specfile descriptor built for the upstream-to-downstream direction has
the upstream specfile path as its only source. -/
theorem gsfsi_src (cfg : CommonPackageConfig) (it : SyncFilesItem)
    (h : cfg.get_specfile_sync_files_item false = .ok it) :
    it.src = [cfg.specfile_path] := by
  unfold CommonPackageConfig.get_specfile_sync_files_item at h
  by_cases hb : pyTruthyStr cfg.downstream_package_name = true
  · rw [if_pos hb] at h
    simp only [Except.ok.injEq] at h
    rw [← h]
    simp
  · rw [if_neg hb] at h
    cases hsp : cfg.specfile_path with
    | none =>
      rw [hsp] at h
      simp at h
    | some p =>
      rw [hsp] at h
      simp only [Except.ok.injEq] at h
      rw [← h]
      simp

/-- Appending a descriptor with a single fresh source path preserves
duplicate-freedom of the flattened source paths. -/
theorem nodup_append_singleton (l : List SyncFilesItem) (p : Option String)
    (d : Option String) (hnd : (iter_srcs l).Nodup) (hp : p ∉ iter_srcs l) :
    (iter_srcs (l ++ [{ src := [p], dest := d }])).Nodup := by
  rw [iter_srcs_append]
  rw [List.nodup_append]
  refine ⟨hnd, by simp [iter_srcs], ?_⟩
  intro x hx
  simp only [iter_srcs, List.map_cons, List.map_nil, List.flatten_cons,
    List.flatten_nil, List.append_nil, List.mem_singleton]
  intro hxp
  subst hxp
  exact hp hx

/-- Full characterization of a successful `get_all_files_to_sync` call. -/
theorem get_all_spec (cfg : CommonPackageConfig) (fs : List SyncFilesItem)
    (cfg' : CommonPackageConfig)
    (h : cfg.get_all_files_to_sync = .ok (fs, cfg')) :
    (cfg._files_to_sync_used = true → fs = cfg._files_to_sync ∧ cfg' = cfg) ∧
    (cfg._files_to_sync_used = false →
      (∃ extra, fs = cfg.files_to_sync ++ extra) ∧
      cfg.specfile_path ∈ iter_srcs fs ∧
      (pyTruthyStr cfg.config_file_path = true → cfg.config_file_path ∈ iter_srcs fs) ∧
      ((iter_srcs cfg.files_to_sync).Nodup → (iter_srcs fs).Nodup) ∧
      (cfg.synced_files ≠ [] → cfg' = { cfg with synced_files := fs }) ∧
      (cfg.synced_files = [] → cfg' = cfg)) := by
  by_cases hu : cfg._files_to_sync_used = true
  · simp only [CommonPackageConfig.get_all_files_to_sync, hu, if_true] at h
    simp only [Except.ok.injEq, Prod.mk.injEq] at h
    obtain ⟨hfs, hcfg⟩ := h
    constructor
    · intro _
      refine ⟨?_, hcfg.symm⟩
      rw [← hfs]
      unfold CommonPackageConfig.files_to_sync
      rw [hu]
      simp
    · intro hf
      rw [hf] at hu
      exact absurd hu (by simp)
  · have hu' : cfg._files_to_sync_used = false := by simpa using hu
    simp only [CommonPackageConfig.get_all_files_to_sync, hu', Bool.false_eq_true,
      if_false] at h
    refine ⟨fun hT => absurd (hu'.symm.trans hT) (by simp), fun _ => ?_⟩
    by_cases hm : cfg.specfile_path ∈ iter_srcs cfg.files_to_sync
    · rw [if_pos hm] at h
      simp only [Except.ok.injEq, Prod.mk.injEq] at h
      obtain ⟨hfs, hcfg⟩ := h
      by_cases hc : pyTruthyStr cfg.config_file_path = true ∧
          cfg.config_file_path ∉ iter_srcs cfg.files_to_sync
      · rw [if_pos hc] at hfs hcfg
        subst hfs
        refine ⟨⟨_, rfl⟩, ?_, ?_, ?_, ?_, ?_⟩
        · rw [iter_srcs_append]
          exact List.mem_append_left _ hm
        · intro _
          rw [iter_srcs_append]
          apply List.mem_append_right
          simp [iter_srcs]
        · intro hnd
          exact nodup_append_singleton _ _ _ hnd hc.2
        · intro hne
          rw [← hcfg]
          simp [hne, hu']
        · intro hnil
          rw [← hcfg]
          simp [hnil]
      · rw [if_neg hc] at hfs hcfg
        subst hfs
        refine ⟨⟨[], by simp⟩, hm, ?_, fun hnd => hnd, ?_, ?_⟩
        · intro htr
          by_contra hnotmem
          exact hc ⟨htr, hnotmem⟩
        · intro hne
          rw [← hcfg]
          simp [hne, hu']
        · intro hnil
          rw [← hcfg]
          simp [hnil]
    · rw [if_neg hm] at h
      cases hg : cfg.get_specfile_sync_files_item false with
      | error e =>
        rw [hg] at h
        simp at h
      | ok it =>
        rw [hg] at h
        simp only [Except.ok.injEq, Prod.mk.injEq] at h
        obtain ⟨hfs, hcfg⟩ := h
        have hsrc : it.src = [cfg.specfile_path] := gsfsi_src cfg it hg
        have hsp_mem : cfg.specfile_path ∈ iter_srcs (cfg.files_to_sync ++ [it]) := by
          rw [iter_srcs_append]
          apply List.mem_append_right
          simp [iter_srcs, hsrc]
        have hnd1 : (iter_srcs cfg.files_to_sync).Nodup →
            (iter_srcs (cfg.files_to_sync ++ [it])).Nodup := by
          intro hnd
          rw [iter_srcs_append]
          rw [List.nodup_append]
          refine ⟨hnd, by simp [iter_srcs, hsrc], ?_⟩
          intro x hx
          simp only [iter_srcs, List.map_cons, List.map_nil, List.flatten_cons,
            List.flatten_nil, List.append_nil, hsrc, List.mem_singleton]
          intro hxp
          subst hxp
          exact hm hx
        by_cases hc : pyTruthyStr cfg.config_file_path = true ∧
            cfg.config_file_path ∉ iter_srcs (cfg.files_to_sync ++ [it])
        · rw [if_pos hc] at hfs hcfg
          subst hfs
          refine ⟨⟨_, by rw [List.append_assoc]⟩, ?_, ?_, ?_, ?_, ?_⟩
          · rw [iter_srcs_append]
            exact List.mem_append_left _ hsp_mem
          · intro _
            rw [iter_srcs_append]
            apply List.mem_append_right
            simp [iter_srcs]
          · intro hnd
            exact nodup_append_singleton _ _ _ (hnd1 hnd) hc.2
          · intro hne
            rw [← hcfg]
            simp [hne, hu']
          · intro hnil
            rw [← hcfg]
            simp [hnil]
        · rw [if_neg hc] at hfs hcfg
          subst hfs
          refine ⟨⟨[it], rfl⟩, hsp_mem, ?_, hnd1, ?_, ?_⟩
          · intro htr
            by_contra hnotmem
            exact hc ⟨htr, hnotmem⟩
          · intro hne
            rw [← hcfg]
            simp [hne, hu']
          · intro hnil
            rw [← hcfg]
            simp [hnil]

/-- Claim C5 counterexample: the universal "never produces duplicate source
paths" is false — when the caller supplies a `files_to_sync` list that itself
repeats a source path, `get_all_files_to_sync` returns it unchanged,
duplicates included. -/
theorem c5_counterexample :
    CommonPackageConfig.init none none none
        (some [{ src := [some "a"], dest := some "a" },
               { src := [some "a"], dest := some "a" }])
        none none none none none "Source0" none ⟨none, none⟩ =
      .ok { defaultCfg with
              _files_to_sync := [{ src := [some "a"], dest := some "a" },
                                 { src := [some "a"], dest := some "a" }]
              _files_to_sync_used := true } ∧
    CommonPackageConfig.get_all_files_to_sync
      { defaultCfg with
          _files_to_sync := [{ src := [some "a"], dest := some "a" },
                             { src := [some "a"], dest := some "a" }]
          _files_to_sync_used := true } =
      .ok ([{ src := [some "a"], dest := some "a" },
            { src := [some "a"], dest := some "a" }],
        { defaultCfg with
            _files_to_sync := [{ src := [some "a"], dest := some "a" },
                               { src := [some "a"], dest := some "a" }]
            _files_to_sync_used := true }) ∧
    ¬ (iter_srcs [{ src := [some "a"], dest := some "a" },
                  { src := [some "a"], dest := some "a" }]).Nodup := by
  refine ⟨by decide, by decide, by decide⟩

/-- Claim C5 (amended): when the new-style `files_to_sync` option was supplied
at construction, `get_all_files_to_sync` returns exactly the supplied list
unchanged (so duplicates supplied by the caller survive); when it was not
supplied, the result extends the resolved sync list with the specfile
descriptor and the config-file descriptor, skipping any descriptor whose
source path is already present among existing entries' source paths — hence
the auto-addition introduces no duplicate: if the resolved list's source paths
are duplicate-free, so are the result's. -/
theorem c5_get_all_files_to_sync (cfg : CommonPackageConfig)
    (fs : List SyncFilesItem) (cfg' : CommonPackageConfig)
    (h : cfg.get_all_files_to_sync = .ok (fs, cfg')) :
    (cfg._files_to_sync_used = true → fs = cfg._files_to_sync ∧ cfg' = cfg) ∧
    (cfg._files_to_sync_used = false →
      (∃ extra, fs = cfg.files_to_sync ++ extra) ∧
      cfg.specfile_path ∈ iter_srcs fs ∧
      (pyTruthyStr cfg.config_file_path = true → cfg.config_file_path ∈ iter_srcs fs) ∧
      ((iter_srcs cfg.files_to_sync).Nodup → (iter_srcs fs).Nodup)) := by
  obtain ⟨h1, h2⟩ := get_all_spec cfg fs cfg' h
  refine ⟨h1, fun hF => ?_⟩
  obtain ⟨he, hsp, hcf, hnd, -, -⟩ := h2 hF
  exact ⟨he, hsp, hcf, hnd⟩

/-- Claim C5 witness: legacy auto-inclusion on a fresh configuration adds the
specfile and config-file descriptors and the result's source paths are
duplicate-free. -/
theorem c5_witness :
    (some "pkg.spec" : Option String) ∈
      iter_srcs [{ src := [some "pkg.spec"], dest := some "pkg.spec" },
                 { src := [some ".packit.yaml"], dest := some ".packit.yaml" }] ∧
    (iter_srcs [{ src := [some "pkg.spec"], dest := some "pkg.spec" },
                { src := [some ".packit.yaml"], dest := some ".packit.yaml" }]).Nodup := by
  have h := (c5_get_all_files_to_sync
    { defaultCfg with
        specfile_path := some "pkg.spec"
        config_file_path := some ".packit.yaml" }
    [{ src := [some "pkg.spec"], dest := some "pkg.spec" },
     { src := [some ".packit.yaml"], dest := some ".packit.yaml" }]
    { defaultCfg with
        specfile_path := some "pkg.spec"
        config_file_path := some ".packit.yaml" }
    (by decide)).2 rfl
  exact ⟨h.2.1, h.2.2.2 (by decide)⟩

/-- Claim C10: when the configuration was constructed without the new-style
option and with a non-empty deprecated `synced_files` list, the list returned
by `get_all_files_to_sync` is the stored `synced_files` list itself with the
legacy descriptors appended in place: the stored state is mutated and every
subsequent `files_to_sync` read observes the appended entries. -/
theorem c10_get_all_files_to_sync_mutates (cfg : CommonPackageConfig)
    (fs : List SyncFilesItem) (cfg' : CommonPackageConfig)
    (hused : cfg._files_to_sync_used = false) (hsf : cfg.synced_files ≠ [])
    (h : cfg.get_all_files_to_sync = .ok (fs, cfg')) :
    cfg' = { cfg with synced_files := fs } ∧
    (∃ extra, fs = cfg.synced_files ++ extra) ∧
    cfg'.files_to_sync = fs := by
  obtain ⟨-, h2⟩ := get_all_spec cfg fs cfg' h
  obtain ⟨⟨extra, hex⟩, -, -, -, hm, -⟩ := h2 hused
  have hb : cfg.files_to_sync = cfg.synced_files := by
    unfold CommonPackageConfig.files_to_sync
    rw [hused]
    simp [hsf]
  have hcfg' := hm hsf
  have hfs_ne : fs ≠ [] := by
    rw [hex, hb]
    intro hnil
    exact hsf (List.append_eq_nil.mp hnil).1
  refine ⟨hcfg', ⟨extra, by rw [hex, hb]⟩, ?_⟩
  rw [hcfg']
  unfold CommonPackageConfig.files_to_sync
  simp [hused, hfs_ne]

/-- Claim C10 witness: a configuration with one deprecated sync entry and a
specfile; after `get_all_files_to_sync` the stored `synced_files` holds the
appended specfile descriptor too, and `files_to_sync` observes it. -/
theorem c10_witness :
    CommonPackageConfig.files_to_sync
      { defaultCfg with
          specfile_path := some "x.spec"
          synced_files := [{ src := [some "b"], dest := some "b" },
                           { src := [some "x.spec"], dest := some "x.spec" }] } =
      [{ src := [some "b"], dest := some "b" },
       { src := [some "x.spec"], dest := some "x.spec" }] :=
  (c10_get_all_files_to_sync_mutates
    { defaultCfg with
        specfile_path := some "x.spec"
        synced_files := [{ src := [some "b"], dest := some "b" }] }
    [{ src := [some "b"], dest := some "b" },
     { src := [some "x.spec"], dest := some "x.spec" }]
    { defaultCfg with
        specfile_path := some "x.spec"
        synced_files := [{ src := [some "b"], dest := some "b" },
                         { src := [some "x.spec"], dest := some "x.spec" }] }
    rfl (by decide) (by decide)).2.2
